import Mathlib

/-!
Verification development for scidownl's HTML pdf extractor
(`src/scidownl/core/extractor.py`), shallowly embedded in Lean.

Python strings become `String`, dictionaries become association lists,
BeautifulSoup query results become values of a `Tag` structure, a parsed
document (`soup`) becomes the list of its tags in document order, and the
side effects of `HtmlPdfExtractor.extract` (mutation of the task context and
calls on `ScihubUrlService`) are made explicit in the return value.
-/

namespace Scidownl

/-! ## Python string primitives -/

/-- Python `str.strip()`: remove leading and trailing whitespace. -/
def pyStrip (s : String) : String :=
  ⟨((s.data.dropWhile Char.isWhitespace).reverse.dropWhile Char.isWhitespace).reverse⟩

/-- Python slicing `s[:n]` on a `str` (by characters). -/
def pyTake (n : Nat) (s : String) : String := ⟨s.data.take n⟩

/-- Python slicing `s[n:]` on a `str` (by characters). -/
def pyDrop (n : Nat) (s : String) : String := ⟨s.data.drop n⟩

/-- Substring containment on character lists, as in Python `sub in s`. -/
def listContainsSub (sub : List Char) : List Char → Bool
  | [] => sub.isEmpty
  | c :: rest => sub.isPrefixOf (c :: rest) || listContainsSub sub rest

/-- Python `sub in s` for strings. -/
def pyIn (sub s : String) : Bool := listContainsSub sub.data s.data

/-- Python `s.startswith(pre)`. -/
def pyStartsWith (pre s : String) : Bool := pre.data.isPrefixOf s.data

/-- Python `s.split("#")[0]`: everything before the first `'#'`. -/
def pySplitHashHead (s : String) : String := ⟨s.data.takeWhile (fun c => c ≠ '#')⟩

/-- Python `s.split('|')[1]`: the segment between the first `'|'` and the
second `'|'` (or the end of the string). Only used when `'|' in s`. -/
def pySplitPipeSecond (s : String) : String :=
  ⟨((s.data.dropWhile (fun c => c ≠ '|')).drop 1).takeWhile (fun c => c ≠ '|')⟩

/-! ## Data model -/

/-- A BeautifulSoup tag, abstracted to what `extractor.py` inspects:
its tag name, its attribute dictionary, the set of CSS selectors it matches
(CSS matching itself is done by the external `bs4`/`soupsieve` libraries),
and its rendered text (`tag.text` / `tag.get_text()`). -/
structure Tag where
  name : String
  attrs : List (String × String)
  selectors : List String
  text : String
deriving Repr, DecidableEq

/-- Python `tag.attrs.get(key)`. -/
def Tag.attrGet (t : Tag) (k : String) : Option String :=
  (t.attrs.find? (fun p => p.1 == k)).map (fun p => p.2)

/-- A parsed document: its tags in document order. -/
abbrev Soup := List Tag

/-- `soup.select_one(sel)`: the first tag matching the CSS selector. -/
def Soup.selectOne (soup : Soup) (sel : String) : Option Tag :=
  soup.find? (fun t => t.selectors.contains sel)

/-- `soup.find(name)` / `soup.title`: the first tag with the given name. -/
def Soup.findTag (soup : Soup) (n : String) : Option Tag :=
  soup.find? (fun t => t.name == n)

/-- `soup.find('meta', {k: v})`: the first `meta` tag whose attribute `k`
equals `v`. -/
def Soup.findMeta (soup : Soup) (k v : String) : Option Tag :=
  soup.find? (fun t => t.name == "meta" && t.attrGet k == some v)

/-- The Python exceptions that can arise inside `extract`'s `try` block.
`other` stands for any further `Exception` subclass (the `except Exception`
clause of `extract` is not limited to the two structural failures). -/
inductive PyErr
  | pdfTagNotFound (msg : String)
  | pdfUrlNotFound (msg : String)
  | other (msg : String)
deriving Repr, DecidableEq

/-- `ExtractException`, which `extract` raises wrapping the original error. -/
structure ExtractException where
  cause : PyErr
deriving Repr, DecidableEq

/-- `PdfUrlTitleInformation(url, title)`. -/
structure PdfUrlTitleInformation where
  url : String
  title : String
deriving Repr, DecidableEq

/-- The fields of `task.context` that `extractor.py` reads or writes, plus
`extra` for every other key of the context dictionary (which the extractor
never touches). -/
structure TaskContext where
  status : Option String := none
  referer : Option String := none
  info : Option PdfUrlTitleInformation := none
  error : Option PyErr := none
  extra : List (String × String) := []
deriving Repr, DecidableEq

/-- A call made on `ScihubUrlService` (`self.service`). -/
inductive ServiceCall
  | incrementFailedTimes (url : Option String)
  | incrementSuccessTimes (url : Option String)
deriving Repr, DecidableEq

/-- The configuration the extractor reads: `pdf_tag_selector` and
`pdf_tag_attr` from section `scihub.task.extractor`, and the class-level
`HtmlPdfExtractor.DEFAULT_REFERER` computed once per process by
`get_default_referer()`. -/
structure ExtractorConfig where
  pdf_tag_selector : String
  pdf_tag_attr : String
  defaultReferer : String
deriving Repr, DecidableEq

/-! ## URL constants

Modelled from the spec: `scidownl/core/information.py` (class
`UrlInformation`, giving `PROTOCOL_PREFIXES` and the default protocol
prefix) is not under `src/`. The spec speaks of "a recognized absolute-URL
protocol prefix" and of prefixing protocol-less `//...` values "with the
default scheme", with `//example.com/x` resolving to
`https://example.com/x`. -/

/-- Modelled from the spec: the recognized absolute-URL protocol prefixes
(`UrlInformation.PROTOCOL_PREFIXES`). -/
def PROTOCOL_PREFIXES : List String := ["http://", "https://"]

/-- Modelled from the spec: the default scheme
(`UrlInformation.DEFAULT_PROTOCOL_PREFIX`) used for `//...` values. -/
def DEFAULT_PROTOCOL : String := "https://"

/-- The `for prefix in UrlInformation.PROTOCOL_PREFIXES: if prefix in
raw_url` test of `_extract_url`. -/
def has_protocol (raw : String) : Bool :=
  PROTOCOL_PREFIXES.any (fun p => pyIn p raw)

/-! ## The extractor (`HtmlPdfExtractor`) -/

/-- `_extract_raw_url` (extractor.py lines 86-97): select the pdf tag with
the configured selector, then read the configured attribute from it. -/
def extract_raw_url (cfg : ExtractorConfig) (soup : Soup) : Except PyErr String :=
  match soup.selectOne cfg.pdf_tag_selector with
  | none => Except.error (PyErr.pdfTagNotFound
      ("No pdf tag was found in the given content with the selector: "
        ++ cfg.pdf_tag_selector))
  | some t =>
    match t.attrGet cfg.pdf_tag_attr with
    | none => Except.error (PyErr.pdfUrlNotFound
        ("No pdf url was found in the pdf tag: " ++ t.text
          ++ " with the attr " ++ cfg.pdf_tag_attr))
    | some raw => Except.ok raw

/-- The referer used to resolve a root-relative URL (extractor.py lines
79-82): the task's `context['referer']` when present, otherwise the
class-level default referer. -/
def refererFor (cfg : ExtractorConfig) (task : Option TaskContext) : String :=
  match task with
  | none => cfg.defaultReferer
  | some t => t.referer.getD cfg.defaultReferer

/-- The URL-resolution part of `_extract_url` (extractor.py lines 71-84),
applied to the raw attribute value: return it as-is when it contains a
recognized protocol prefix; otherwise strip the fragment, prefix `//...`
values with the default scheme and `/...` values with the referer. -/
def resolve_raw_url (cfg : ExtractorConfig) (task : Option TaskContext)
    (raw : String) : String :=
  if has_protocol raw then raw
  else
    let url := pySplitHashHead raw
    if pyStartsWith "//" url then DEFAULT_PROTOCOL ++ pyDrop 2 url
    else if pyStartsWith "/" url then refererFor cfg task ++ url
    else url

/-- `_extract_url` (extractor.py lines 68-84). -/
def extract_url (cfg : ExtractorConfig) (task : Option TaskContext)
    (soup : Soup) : Except PyErr String :=
  (extract_raw_url cfg soup).map (resolve_raw_url cfg task)

/-- The filesystem-hostile characters of `_clean_title`'s regex
`[\/\\\:\*\?\"\<\>\|]`. -/
def hostileChar (c : Char) : Bool :=
  ['/', '\\', ':', '*', '?', '"', '<', '>', '|'].contains c

/-- `re.sub(rstr, " ", title)`: each hostile character becomes one space. -/
def replaceHostile (s : String) : String :=
  ⟨s.data.map (fun c => if hostileChar c then ' ' else c)⟩

/-- `_clean_title` (extractor.py lines 125-133): empty input is returned
as-is (`if not title`); otherwise replace hostile characters by a space,
truncate to 200 characters, and strip surrounding whitespace. -/
def clean_title (title : String) : String :=
  if title == "" then ""
  else pyStrip (pyTake 200 (replaceHostile title))

/-- Method 1 of `_extract_title` (extractor.py lines 105-111): the title
tag's text when non-empty, taking `text.split('|')[1]` when the text
contains a `'|'`; the empty string otherwise. -/
def title_from_title_tag (soup : Soup) : String :=
  match soup.findTag "title" with
  | none => ""
  | some tt =>
    if tt.text.length > 0 then
      if tt.text.data.contains '|' then pySplitPipeSecond tt.text else tt.text
    else ""

/-- `_extract_title` (extractor.py lines 99-123). `bs4.element.Tag` defines
`__bool__` to return `True`, so `soup.find(...)` is truthy exactly when a
tag was found, and `a or b` on two `find` results yields the first found
tag. -/
def extract_title (soup : Soup) : String :=
  let title1 := title_from_title_tag soup
  let title2 :=
    if pyStrip title1 == "" then
      match soup.findTag "h1" with
      | some h1 => h1.text
      | none => title1
    else title1
  let title3 :=
    if pyStrip title2 == "" then
      let metaTitle :=
        match soup.findMeta "name" "citation_title" with
        | some m => some m
        | none => soup.findMeta "property" "og:title"
      match metaTitle with
      | some m =>
        match m.attrGet "content" with
        | some c => c
        | none => title2
      | none => title2
    else title2
  clean_title title3

/-- `extract`'s `try`/`except Exception` body (extractor.py lines 49-66),
applied to the outcome of running `_extract_url` and `_extract_title`:
on success store the information under `context['info']`; on any error set
`context['status']` and `context['error']`, call
`service.increment_failed_times(context.get('referer', None))`, and raise
`ExtractException` wrapping the error. -/
def extractBody (r : Except PyErr (String × String)) (task : Option TaskContext) :
    Except ExtractException PdfUrlTitleInformation × Option TaskContext × List ServiceCall :=
  match r with
  | Except.ok (url, title) =>
    let info : PdfUrlTitleInformation := ⟨url, title⟩
    (Except.ok info, task.map (fun t => { t with info := some info }), [])
  | Except.error e =>
    match task with
    | none => (Except.error ⟨e⟩, none, [])
    | some t =>
      (Except.error ⟨e⟩,
       some { t with status := some "extracting_failed", error := some e },
       [ServiceCall.incrementFailedTimes t.referer])

/-- `HtmlPdfExtractor.extract` (extractor.py lines 49-66): run
`_extract_url` then `_extract_title`, then the `try`/`except` handling. -/
def extract (cfg : ExtractorConfig) (soup : Soup) (task : Option TaskContext) :
    Except ExtractException PdfUrlTitleInformation × Option TaskContext × List ServiceCall :=
  extractBody ((extract_url cfg task soup).map (fun u => (u, extract_title soup))) task

/-! ## The default referer (`get_default_referer`, extractor.py lines 20-25) -/

/-- A persisted scihub mirror record (`ScihubUrl` of the db layer). -/
structure ScihubUrl where
  url : String
  success_times : Nat
  failed_times : Nat
deriving Repr, DecidableEq

/-- Modelled from the spec: `scidownl/core/chooser.py` is not under `src/`.
A chooser is abstracted as its ranked candidate list; `next()` hands out the
top-ranked candidate and fails (`NoMirrorAvailable`) on an empty candidate
set, so it is modelled as returning the head of the list when one exists. -/
def chooserNext (chooser : List ScihubUrl) : Option ScihubUrl := chooser.head?

/-- `get_default_referer` (extractor.py lines 20-25): the hardcoded
`"https://sci-hub.se"` when `len(chooser) == 0`, else `chooser.next().url`.
`chooser.next()` succeeds exactly when the candidate list is non-empty, so
the `len(chooser) == 0` test coincides with `chooserNext` returning
nothing. -/
def get_default_referer (chooser : List ScihubUrl) : String :=
  match chooserNext chooser with
  | none => "https://sci-hub.se"
  | some m => m.url

/-! ## Concrete fixtures used by witnesses and counterexamples -/

/-- A concrete extractor configuration (the config file is external). -/
def cfg0 : ExtractorConfig :=
  { pdf_tag_selector := "#pdf", pdf_tag_attr := "src",
    defaultReferer := "https://sci-hub.se" }

/-- A task context whose referer mirror is `https://sci-hub.ru`. -/
def ctx0 : TaskContext := { referer := some "https://sci-hub.ru" }

/-- A task context whose referer mirror is `https://m1.test`. -/
def ctxM1 : TaskContext := { referer := some "https://m1.test" }

/-- A tag matching `#pdf` but carrying no `src` attribute. -/
def tagNoAttr : Tag := ⟨"embed", [], ["#pdf"], "pdftext"⟩

/-- The error `_extract_raw_url` raises when `cfg0`'s selector matches
nothing. -/
def eTag0 : PyErr := PyErr.pdfTagNotFound
  "No pdf tag was found in the given content with the selector: #pdf"

/-- A document with an absolute pdf link and a piped title. -/
def soupOk : Soup :=
  [⟨"embed", [("src", "https://x.org/p.pdf")], ["#pdf"], ""⟩,
   ⟨"title", [], [], "Foo Bar | Great Journal"⟩]

/-- A document with a `citation_title` meta tag lacking `content` and an
`og:title` meta tag carrying `content`. -/
def soupC6 : Soup :=
  [⟨"meta", [("name", "citation_title")], [], ""⟩,
   ⟨"meta", [("property", "og:title"), ("content", "OG Title")], [], ""⟩]

/-! ## Helper lemmas -/

/-- Stripping never lengthens a string. -/
theorem pyStrip_length_le (s : String) : (pyStrip s).length ≤ s.length := by
  have h1 : ∀ (l : List Char) (p : Char → Bool), (l.dropWhile p).length ≤ l.length :=
    fun l p => (List.dropWhile_suffix p).length_le
  calc (pyStrip s).length
      = (((s.data.dropWhile Char.isWhitespace).reverse.dropWhile
            Char.isWhitespace).reverse).length := rfl
    _ = ((s.data.dropWhile Char.isWhitespace).reverse.dropWhile
            Char.isWhitespace).length := by rw [List.length_reverse]
    _ ≤ (s.data.dropWhile Char.isWhitespace).reverse.length := h1 _ _
    _ = (s.data.dropWhile Char.isWhitespace).length := by rw [List.length_reverse]
    _ ≤ s.data.length := h1 _ _
    _ = s.length := rfl

/-- Truncation bounds the length by the cut. -/
theorem pyTake_length_le (n : Nat) (s : String) : (pyTake n s).length ≤ n := by
  show (s.data.take n).length ≤ n
  rw [List.length_take]
  exact Nat.min_le_left _ _

/-! ## Claims -/

/-- C2: every extraction error inside `extract()` on a task sets the
context status to `extracting_failed`, records the error in the context,
and calls `increment_failed_times` on the health store for the task's
referer, and this happens even though `extract()` then raises
`ExtractException` (the result is the raised exception together with the
already-performed context update and service call). -/
theorem scidownl_C2 (cfg : ExtractorConfig) (soup : Soup) (t : TaskContext)
    (e : PyErr) (h : extract_url cfg (some t) soup = Except.error e) :
    extract cfg soup (some t) =
      (Except.error ⟨e⟩,
       some { t with status := some "extracting_failed", error := some e },
       [ServiceCall.incrementFailedTimes t.referer]) := by
  simp [extract, h, Except.map, extractBody]

/-- Witness for C2 at an empty document and a task with referer
`https://sci-hub.ru`. -/
theorem scidownl_C2_witness :
    extract cfg0 [] (some ctx0) =
      (Except.error ⟨eTag0⟩,
       some { ctx0 with status := some "extracting_failed", error := some eTag0 },
       [ServiceCall.incrementFailedTimes (some "https://sci-hub.ru")]) :=
  scidownl_C2 cfg0 [] ctx0 eTag0 (by rfl)

/-- C3: `_extract_raw_url` fails with `PdfTagNotFoundException` exactly when
no element matches the configured selector, fails with
`PdfUrlNotFoundException` exactly when the first matched element lacks the
configured link attribute, and `extract` wraps either error in an
`ExtractException`. -/
theorem scidownl_C3 (cfg : ExtractorConfig) (soup : Soup) (task : Option TaskContext) :
    ((∃ m, extract_raw_url cfg soup = Except.error (PyErr.pdfTagNotFound m)) ↔
        soup.selectOne cfg.pdf_tag_selector = none)
  ∧ ((∃ m, extract_raw_url cfg soup = Except.error (PyErr.pdfUrlNotFound m)) ↔
        ∃ t, soup.selectOne cfg.pdf_tag_selector = some t
          ∧ t.attrGet cfg.pdf_tag_attr = none)
  ∧ (∀ e, extract_raw_url cfg soup = Except.error e →
        (extract cfg soup task).1 = Except.error ⟨e⟩) := by
  refine ⟨?_, ?_, ?_⟩
  · cases hsel : soup.selectOne cfg.pdf_tag_selector with
    | none => simp [extract_raw_url, hsel]
    | some t =>
      cases hattr : t.attrGet cfg.pdf_tag_attr with
      | none => simp [extract_raw_url, hsel, hattr]
      | some raw => simp [extract_raw_url, hsel, hattr]
  · cases hsel : soup.selectOne cfg.pdf_tag_selector with
    | none => simp [extract_raw_url, hsel]
    | some t =>
      cases hattr : t.attrGet cfg.pdf_tag_attr with
      | none => simp [extract_raw_url, hsel, hattr]
      | some raw => simp [extract_raw_url, hsel, hattr]
  · intro e he
    have hu : extract_url cfg task soup = Except.error e := by
      simp [extract_url, he, Except.map]
    cases task with
    | none => simp [extract, hu, Except.map, extractBody]
    | some t => simp [extract, hu, Except.map, extractBody]

/-- Witness for C3: an empty document yields `PdfTagNotFoundException`, a
matching tag without the `src` attribute yields `PdfUrlNotFoundException`,
and the former is wrapped by `extract` into an `ExtractException`. -/
theorem scidownl_C3_witness :
    (∃ m, extract_raw_url cfg0 [] = Except.error (PyErr.pdfTagNotFound m))
  ∧ (∃ m, extract_raw_url cfg0 [tagNoAttr] = Except.error (PyErr.pdfUrlNotFound m))
  ∧ (extract cfg0 [] none).1 = Except.error ⟨eTag0⟩ := by
  refine ⟨?_, ?_, ?_⟩
  · exact (scidownl_C3 cfg0 [] none).1.mpr rfl
  · exact (scidownl_C3 cfg0 [tagNoAttr] none).2.1.mpr ⟨tagNoAttr, rfl, rfl⟩
  · exact (scidownl_C3 cfg0 [] none).2.2 eTag0 (by rfl)

/-- C4: a raw URL value that contains a recognized absolute-URL protocol
prefix is returned by URL resolution unchanged, including any fragment. -/
theorem scidownl_C4 (cfg : ExtractorConfig) (task : Option TaskContext)
    (raw : String) (h : ∃ p ∈ PROTOCOL_PREFIXES, pyIn p raw = true) :
    resolve_raw_url cfg task raw = raw := by
  have hp : has_protocol raw = true := by
    rcases h with ⟨p, hp1, hp2⟩
    simp only [has_protocol, List.any_eq_true]
    exact ⟨p, hp1, hp2⟩
  simp [resolve_raw_url, hp]

/-- Witness for C4 at a fragment-carrying absolute URL. -/
theorem scidownl_C4_witness :
    resolve_raw_url cfg0 none "https://x.org/a.pdf#frag" = "https://x.org/a.pdf#frag" :=
  scidownl_C4 cfg0 none "https://x.org/a.pdf#frag" ⟨"https://", by decide, by decide⟩

/-- C5: for a raw value without a recognized protocol prefix, resolution
first strips everything from the first `'#'`; a stripped value that starts
with `//` gets the default scheme, a stripped value that starts with a
single `/` gets the referer; the referer is the process-wide default when
there is no task or the task has no referer; `//example.com/x` resolves to
`https://example.com/x` and `/x` with referer `https://m1.test` to
`https://m1.test/x`. -/
theorem scidownl_C5 (cfg : ExtractorConfig) (task : Option TaskContext)
    (raw : String) (h : ∀ p ∈ PROTOCOL_PREFIXES, pyIn p raw = false) :
    (pyStartsWith "//" (pySplitHashHead raw) = true →
       resolve_raw_url cfg task raw = DEFAULT_PROTOCOL ++ pyDrop 2 (pySplitHashHead raw))
  ∧ (pyStartsWith "//" (pySplitHashHead raw) = false →
     pyStartsWith "/" (pySplitHashHead raw) = true →
       resolve_raw_url cfg task raw = refererFor cfg task ++ pySplitHashHead raw)
  ∧ refererFor cfg none = cfg.defaultReferer
  ∧ (∀ t : TaskContext, t.referer = none → refererFor cfg (some t) = cfg.defaultReferer)
  ∧ resolve_raw_url cfg none "//example.com/x" = "https://example.com/x"
  ∧ resolve_raw_url cfg (some ctxM1) "/x" = "https://m1.test/x" := by
  have hp : has_protocol raw = false := by
    simp only [has_protocol, List.any_eq_false]
    intro p hmem
    simp [h p hmem]
  refine ⟨?_, ?_, rfl, ?_, rfl, rfl⟩
  · intro h2
    simp [resolve_raw_url, hp, h2]
  · intro h2 h3
    simp [resolve_raw_url, hp, h2, h3]
  · intro t ht
    simp [refererFor, ht]

/-- Witness for C5: `/x#sec2` with referer `https://m1.test` resolves to
`https://m1.test/x` (fragment stripped, referer prefixed). -/
theorem scidownl_C5_witness :
    resolve_raw_url cfg0 (some ctxM1) "/x#sec2" = "https://m1.test/x" :=
  (((scidownl_C5 cfg0 (some ctxM1) "/x#sec2" (by decide)).2.1)
    (by decide) (by decide)).trans (by decide)

/-- C1, counterexample: the raw attribute value `foo.pdf` contains no
recognized protocol prefix and does not start with `/`, and `_extract_url`
returns it unchanged — a relative, non-scheme-qualified document URL, so a
successful extraction can produce a relative URL. -/
theorem scidownl_C1_counterexample :
    extract_url cfg0 none [⟨"embed", [("src", "foo.pdf")], ["#pdf"], ""⟩]
      = Except.ok "foo.pdf"
  ∧ has_protocol "foo.pdf" = false
  ∧ pyStartsWith "/" "foo.pdf" = false
  ∧ pyIn "://" "foo.pdf" = false :=
  ⟨rfl, by decide, by decide, by decide⟩

/-- C1, amended: the result of URL resolution falls into exactly one of
four cases — raw values containing a recognized protocol prefix are
returned unchanged; protocol-less values starting (after fragment
stripping) with `//` are prefixed with the default scheme; protocol-less
values starting with a single `/` are prefixed with the referer base URL;
all remaining values are returned with only the fragment stripped and may
be relative. -/
theorem scidownl_C1_amended (cfg : ExtractorConfig) (task : Option TaskContext)
    (raw : String) :
    (has_protocol raw = true ∧ resolve_raw_url cfg task raw = raw)
  ∨ (has_protocol raw = false
      ∧ pyStartsWith "//" (pySplitHashHead raw) = true
      ∧ resolve_raw_url cfg task raw = DEFAULT_PROTOCOL ++ pyDrop 2 (pySplitHashHead raw))
  ∨ (has_protocol raw = false
      ∧ pyStartsWith "//" (pySplitHashHead raw) = false
      ∧ pyStartsWith "/" (pySplitHashHead raw) = true
      ∧ resolve_raw_url cfg task raw = refererFor cfg task ++ pySplitHashHead raw)
  ∨ (has_protocol raw = false
      ∧ pyStartsWith "//" (pySplitHashHead raw) = false
      ∧ pyStartsWith "/" (pySplitHashHead raw) = false
      ∧ resolve_raw_url cfg task raw = pySplitHashHead raw) := by
  cases h1 : has_protocol raw with
  | true => exact Or.inl ⟨rfl, by simp [resolve_raw_url, h1]⟩
  | false =>
    cases h2 : pyStartsWith "//" (pySplitHashHead raw) with
    | true =>
      exact Or.inr (Or.inl ⟨rfl, rfl, by simp [resolve_raw_url, h1, h2]⟩)
    | false =>
      cases h3 : pyStartsWith "/" (pySplitHashHead raw) with
      | true =>
        exact Or.inr (Or.inr (Or.inl ⟨rfl, rfl, rfl,
          by simp [resolve_raw_url, h1, h2, h3]⟩))
      | false =>
        exact Or.inr (Or.inr (Or.inr ⟨rfl, rfl, rfl,
          by simp [resolve_raw_url, h1, h2, h3]⟩))

/-- C6, counterexample: with no title tag, no h1 tag, a `citation_title`
meta tag lacking the `content` attribute, and an `og:title` meta tag whose
content is the non-empty `OG Title`, title extraction returns the empty
string instead of falling back to the `og:title` content. -/
theorem scidownl_C6_counterexample :
    extract_title soupC6 = ""
  ∧ (soupC6.findMeta "property" "og:title").bind (fun m => m.attrGet "content")
      = some "OG Title"
  ∧ soupC6.findTag "title" = none
  ∧ soupC6.findTag "h1" = none
  ∧ clean_title "OG Title" = "OG Title" := by decide

/-- C6, amended: title extraction tries the title element (segment after
the first `|` when present, else the whole text), then the first h1, then
the `citation_title` meta content, each only when every earlier method
produced empty or whitespace-only text; the `og:title` meta content is used
only when no `citation_title` meta tag exists at all (a `citation_title`
tag lacking `content` stops the fallback without producing text). -/
theorem scidownl_C6_amended (soup : Soup) :
    (pyStrip (title_from_title_tag soup) ≠ "" →
       extract_title soup = clean_title (title_from_title_tag soup))
  ∧ (∀ h1, pyStrip (title_from_title_tag soup) = "" →
       soup.findTag "h1" = some h1 → pyStrip h1.text ≠ "" →
       extract_title soup = clean_title h1.text)
  ∧ (∀ m c, pyStrip (title_from_title_tag soup) = "" →
       (soup.findTag "h1" = none ∨
         ∃ h1, soup.findTag "h1" = some h1 ∧ pyStrip h1.text = "") →
       soup.findMeta "name" "citation_title" = some m →
       m.attrGet "content" = some c →
       extract_title soup = clean_title c)
  ∧ (∀ m c, pyStrip (title_from_title_tag soup) = "" →
       (soup.findTag "h1" = none ∨
         ∃ h1, soup.findTag "h1" = some h1 ∧ pyStrip h1.text = "") →
       soup.findMeta "name" "citation_title" = none →
       soup.findMeta "property" "og:title" = some m →
       m.attrGet "content" = some c →
       extract_title soup = clean_title c)
  ∧ extract_title [⟨"title", [], [], "Foo Bar | Great Journal"⟩] = "Great Journal"
  ∧ extract_title [⟨"title", [], [], ""⟩, ⟨"h1", [], [], "Fallback Title"⟩]
      = "Fallback Title" := by
  refine ⟨?_, ?_, ?_, ?_, by decide, by decide⟩
  · intro hne
    simp [extract_title, hne]
  · intro h1 hstrip hh1 hne
    simp [extract_title, hstrip, hh1, hne]
  · intro m c hstrip halt hmeta hc
    rcases halt with hnone | ⟨h1, hh1, hws⟩
    · simp [extract_title, hstrip, hnone, hmeta, hc]
    · simp [extract_title, hstrip, hh1, hws, hmeta, hc]
  · intro m c hstrip halt hcit hog hc
    rcases halt with hnone | ⟨h1, hh1, hws⟩
    · simp [extract_title, hstrip, hnone, hcit, hog, hc]
    · simp [extract_title, hstrip, hh1, hws, hcit, hog, hc]

/-- Witness for the amended C6: the piped title `Foo Bar | Great Journal`
yields `Great Journal` through the first method. -/
theorem scidownl_C6_witness :
    extract_title [⟨"title", [], [], "Foo Bar | Great Journal"⟩] = "Great Journal" :=
  ((scidownl_C6_amended [⟨"title", [], [], "Foo Bar | Great Journal"⟩]).1
    (by decide)).trans (by decide)

/-- C7: title cleaning equals replacing each filesystem-hostile character
by one space, truncating to 200 characters, then trimming; replacement
preserves length (replaced, not removed); the result never exceeds 200
characters; `My/Title:Here` cleans to `My Title Here`; and an input that
cleans to the empty string yields the empty string as a normal return
value. -/
theorem scidownl_C7 (s : String) :
    clean_title s = pyStrip (pyTake 200 (replaceHostile s))
  ∧ (replaceHostile s).length = s.length
  ∧ (clean_title s).length ≤ 200
  ∧ clean_title "My/Title:Here" = "My Title Here"
  ∧ clean_title "///" = "" := by
  have heq : clean_title s = pyStrip (pyTake 200 (replaceHostile s)) := by
    by_cases h : s = ""
    · subst h; decide
    · have hbeq : (s == "") = false := by
        simp [h]
      simp [clean_title, hbeq]
  refine ⟨heq, ?_, ?_, by decide, by decide⟩
  · show (s.data.map _).length = s.data.length
    exact List.length_map _ _
  · rw [heq]
    exact le_trans (pyStrip_length_le _) (pyTake_length_le _ _)

/-- C8: on a successful extraction, `extract` stores the extracted
information in the context under `info`, makes no health-store call (the
service-call list is empty), and changes no context field other than
`info` (the update is `{ t with info := ... }`, so `status`, `referer`,
`error` and all remaining context entries are untouched). -/
theorem scidownl_C8 (cfg : ExtractorConfig) (soup : Soup) (t : TaskContext)
    (url : String) (h : extract_url cfg (some t) soup = Except.ok url) :
    extract cfg soup (some t) =
      (Except.ok ⟨url, extract_title soup⟩,
       some { t with info := some ⟨url, extract_title soup⟩ },
       []) := by
  simp [extract, h, Except.map, extractBody]

/-- Witness for C8 at a document with an absolute pdf link and a piped
title. -/
theorem scidownl_C8_witness :
    extract cfg0 soupOk (some ctx0) =
      (Except.ok ⟨"https://x.org/p.pdf", extract_title soupOk⟩,
       some { ctx0 with info := some ⟨"https://x.org/p.pdf", extract_title soupOk⟩ },
       []) :=
  scidownl_C8 cfg0 soupOk ctx0 "https://x.org/p.pdf" (by rfl)

/-- C9: the default referer is the hardcoded `https://sci-hub.se` when the
configured chooser has zero candidates, and the URL of the mirror returned
by the chooser's `next()` when it has at least one. -/
theorem scidownl_C9 (chooser : List ScihubUrl) :
    (chooser.length = 0 → get_default_referer chooser = "https://sci-hub.se")
  ∧ (0 < chooser.length →
       ∃ m, chooserNext chooser = some m ∧ get_default_referer chooser = m.url) := by
  cases chooser with
  | nil => exact ⟨fun _ => rfl, fun h => absurd h (by simp)⟩
  | cons a l =>
    refine ⟨fun h => by simp at h, fun _ => ⟨a, rfl, rfl⟩⟩

/-- Witness for C9 at the empty chooser and at a one-candidate chooser. -/
theorem scidownl_C9_witness :
    get_default_referer [] = "https://sci-hub.se"
  ∧ get_default_referer [⟨"https://sci-hub.ru", 3, 1⟩] = "https://sci-hub.ru" := by
  refine ⟨(scidownl_C9 []).1 rfl, ?_⟩
  obtain ⟨m, hm, hu⟩ := (scidownl_C9 [⟨"https://sci-hub.ru", 3, 1⟩]).2 (by decide)
  simp only [chooserNext, List.head?, Option.some.injEq] at hm
  rw [hu, ← hm]

/-- C10: the `except Exception` handler of `extract` treats every error
uniformly — any error (including ones that are neither of the two
structural failures) is wrapped in an `ExtractException`, and when a task
is present the status is set to `extracting_failed`, the error is recorded,
and `increment_failed_times` is called on the referer; no non-`ok` outcome
of the extraction body escapes unwrapped, and `extract` is exactly this
handler applied to the URL-then-title extraction pipeline. -/
theorem scidownl_C10 (e : PyErr) :
    extractBody (Except.error e) none = (Except.error ⟨e⟩, none, [])
  ∧ (∀ t : TaskContext, extractBody (Except.error e) (some t) =
       (Except.error ⟨e⟩,
        some { t with status := some "extracting_failed", error := some e },
        [ServiceCall.incrementFailedTimes t.referer]))
  ∧ (∀ (r : Except PyErr (String × String)) (task : Option TaskContext),
       (∀ u, r ≠ Except.ok u) → ∃ e2, (extractBody r task).1 = Except.error ⟨e2⟩)
  ∧ (∀ (cfg : ExtractorConfig) (soup : Soup) (task : Option TaskContext),
       extract cfg soup task =
         extractBody ((extract_url cfg task soup).map
           (fun u => (u, extract_title soup))) task) := by
  refine ⟨rfl, fun t => rfl, ?_, fun _ _ _ => rfl⟩
  intro r task hr
  cases r with
  | ok u => exact absurd rfl (hr u)
  | error e2 => cases task <;> exact ⟨e2, rfl⟩

/-- Witness for C10 at an error that is not one of the two structural
failures. -/
theorem scidownl_C10_witness :
    extractBody (Except.error (PyErr.other "boom")) (some ctx0) =
      (Except.error ⟨PyErr.other "boom"⟩,
       some { ctx0 with status := some "extracting_failed", error := some (PyErr.other "boom") },
       [ServiceCall.incrementFailedTimes (some "https://sci-hub.ru")])
  ∧ ∃ e2, (extractBody (Except.error (PyErr.other "boom")) none).1
      = Except.error ⟨e2⟩ := by
  refine ⟨?_, ?_⟩
  · exact (scidownl_C10 (PyErr.other "boom")).2.1 ctx0
  · exact (scidownl_C10 (PyErr.other "boom")).2.2.1
      (Except.error (PyErr.other "boom")) none (fun u h => nomatch h)

end Scidownl
